import Mathlib

/-!
Verification of the core logic of the lobsterTrimmer application (Trimmer.py).

This file is a shallow embedding, in Lean 4, of the logic-bearing parts of the
program: the `sanitize` and `hhmmss` utilities, the `RangeSlider` widget state
and its operations (`setRange`, `setLowerValue`, `setUpperValue`, `setValue`,
`_val_to_pos`, `_pos_to_val`), the download worker's progress hook and its
`run` control flow, and the `trim_save` action of the main window.

Python integers are modelled as `Int` (or `Nat` where the quantity is a byte
or second count), Python's real arithmetic in the coordinate mapping as `Rat`
(an exact idealisation of the floats the program uses), Python's `int(...)`
truncation as `pytrunc` and its banker's `round(...)` as `pyround`.  Signal
emissions (Qt signals, message boxes, subprocess spawns) are modelled as
explicit event lists in emission order.
-/

/-! ## Utility functions: sanitize and hhmmss -/

/-- The characters of the Python string `INVALID = r'<>:"/\\|?*'`
(the raw string contains the backslash twice; as a membership set the
duplicate is irrelevant, and we keep it to stay literal). -/
def INVALID : List Char := ['<', '>', ':', '\"', '/', '\\', '\\', '|', '?', '*']

/-- `sanitize(t, repl="-")`: `"".join(c if c not in INVALID else repl for c in t)`. -/
def sanitize (t : String) (repl : String) : String :=
  String.join (t.data.map (fun c => if c ∈ INVALID then repl else String.singleton c))

/-- Zero-padding to two digits, Python's `"%02d" % n` for `0 ≤ n < 100`. -/
def pad2 (n : Nat) : String :=
  if n < 10 then "0" ++ toString n else toString n

/-- `hhmmss(sec)` is `str(timedelta(seconds=int(sec)))`.  `timedelta`
normalises to `days` (floor division) plus `_seconds ∈ [0, 86400)`, and its
`__str__` prints `hh:mm:ss` with an unpadded hour, prefixed with
`"N day(s), "` when `days` is nonzero. -/
def hhmmss (sec : Int) : String :=
  let days := sec.fdiv 86400
  let rem := (sec - 86400 * days).toNat
  let hh := rem / 3600
  let mm := rem % 3600 / 60
  let ss := rem % 60
  let base := toString hh ++ ":" ++ pad2 mm ++ ":" ++ pad2 ss
  if days = 0 then base
  else toString days ++ " day" ++ (if days = 1 ∨ days = -1 then "" else "s") ++ ", " ++ base

/-! ## RangeSlider -/

/-- The mutable state of `RangeSlider`: fields `_min`, `_max`, `_lower`,
`_upper`, `_value` (named `minv`/`maxv` here because `min`/`max` would shadow
the order operations inside the `RangeSlider` namespace).  The purely visual
fields (`_bar_h`, `_active`, mouse tracking) carry no logic relevant to the
claims and are omitted; `_handle_r` is the constant `8` (see `handle_r`). -/
structure RangeSlider where
  minv : Int
  maxv : Int
  lower : Int
  upper : Int
  value : Int
  deriving DecidableEq, Repr

/-- `RangeSlider.__init__(minimum=0, maximum=99)`. -/
def RangeSlider.init (minimum maximum : Int) : RangeSlider :=
  { minv := minimum, maxv := maximum, lower := minimum, upper := maximum, value := minimum }

/-- The Qt signals a `RangeSlider` operation can emit. -/
inductive SliderSig
  | lowerChanged (v : Int)
  | upperChanged (v : Int)
  | valChanged (v : Int)
  deriving DecidableEq, Repr

/-- `setRange(a, b)`: `self._min, self._max = a, b; self._lower, self._upper
= a, b; self._value = max(a, min(self._value, b))`.  Emits nothing. -/
def RangeSlider.setRange (s : RangeSlider) (a b : Int) : RangeSlider :=
  { minv := a, maxv := b, lower := a, upper := b, value := max a (min s.value b) }

/-- `setLowerValue(v)`: clamp by `v = max(self._min, min(v, self._upper))`;
on change, store it, snap `_value` up when `_value < v` (emitting
`valueChanged`), and emit `lowerValueChanged`.  Returns the new state and the
emitted signals in emission order. -/
def RangeSlider.setLowerValue (s : RangeSlider) (v : Int) : RangeSlider × List SliderSig :=
  let v2 := max s.minv (min v s.upper)
  if v2 ≠ s.lower then
    if s.value < v2 then
      ({ s with lower := v2, value := v2 }, [.valChanged v2, .lowerChanged v2])
    else
      ({ s with lower := v2 }, [.lowerChanged v2])
  else (s, [])

/-- `setUpperValue(v)`: clamp by `v = min(self._max, max(v, self._lower))`;
on change, store it, snap `_value` down when `_value > v` (emitting
`valueChanged`), and emit `upperValueChanged`. -/
def RangeSlider.setUpperValue (s : RangeSlider) (v : Int) : RangeSlider × List SliderSig :=
  let v2 := min s.maxv (max v s.lower)
  if v2 ≠ s.upper then
    if s.value > v2 then
      ({ s with upper := v2, value := v2 }, [.valChanged v2, .upperChanged v2])
    else
      ({ s with upper := v2 }, [.upperChanged v2])
  else (s, [])

/-- `setValue(v)`: clamp by `v = max(self._lower, min(v, self._upper))`;
on change, store it and emit `valueChanged`. -/
def RangeSlider.setValue (s : RangeSlider) (v : Int) : RangeSlider × List SliderSig :=
  let v2 := max s.lower (min v s.upper)
  if v2 ≠ s.value then
    ({ s with value := v2 }, [.valChanged v2])
  else (s, [])

/-- The documented widget invariant:
`min ≤ lower ≤ upper ≤ max` and `lower ≤ value ≤ upper`. -/
def RangeSlider.Inv (s : RangeSlider) : Prop :=
  s.minv ≤ s.lower ∧ s.lower ≤ s.upper ∧ s.upper ≤ s.maxv ∧
    s.lower ≤ s.value ∧ s.value ≤ s.upper

instance (s : RangeSlider) : Decidable s.Inv := by
  unfold RangeSlider.Inv; infer_instance

/-! ## Coordinate mapping (`_val_to_pos` / `_pos_to_val`)

The Python code computes with floats; we embed the arithmetic exactly over
`Rat`.  `pytrunc` is Python's `int(...)` (truncation toward zero) and
`pyround` is Python's `round(...)` (round half to even, returning an int). -/

/-- Python `int(q)`: truncation toward zero. -/
def pytrunc (q : Rat) : Int :=
  if q < 0 then -(Int.floor (-q)) else Int.floor q

/-- Python `round(q)`: nearest integer, ties to even. -/
def pyround (q : Rat) : Int :=
  let f := Int.floor q
  let r := q - f
  if r < 1/2 then f
  else if 1/2 < r then f + 1
  else if f % 2 = 0 then f else f + 1

/-- `self._handle_r = 8` (fixed at construction). -/
def handle_r : Int := 8

/-- `span = self._max - self._min or 1` (Python `or`: `1` when the
difference is the falsy value `0`). -/
def sliderSpan (minv maxv : Int) : Int :=
  if maxv - minv = 0 then 1 else maxv - minv

/-- `_val_to_pos(v) = int((v - self._min) / span * w) + self._handle_r`
with `w = self.width() - 2 * self._handle_r`; `width` is the widget width. -/
def val_to_pos (width minv maxv v : Int) : Int :=
  let span := sliderSpan minv maxv
  let w := width - 2 * handle_r
  pytrunc (((v : Rat) - (minv : Rat)) / (span : Rat) * (w : Rat)) + handle_r

/-- `_pos_to_val(x)`: clamp `x` into `[handle_r, width - handle_r]`,
subtract `handle_r`, then `round(x / w * span + self._min)`. -/
def pos_to_val (width minv maxv : Int) (x : Rat) : Int :=
  let span := sliderSpan minv maxv
  let w := width - 2 * handle_r
  let x2 := max (handle_r : Rat) (min x ((width : Rat) - (handle_r : Rat))) - (handle_r : Rat)
  pyround (x2 / (w : Rat) * (span : Rat) + (minv : Rat))

/-! ## Download worker -/

/-- Python `a or b` on an optional byte count: `a` when truthy
(present and nonzero), else `b`. -/
def pyOrNat (a b : Option Nat) : Option Nat :=
  match a with
  | some n => if n ≠ 0 then some n else b
  | none => b

/-- Python `a or b` on an optional string: `a` when truthy
(present and nonempty), else `b`. -/
def pyOrStr (a : Option String) (b : String) : String :=
  match a with
  | some t => if t ≠ "" then t else b
  | none => b

/-- The progress hook `phook(d)` of `DownloadWorker.run`: when
`d["status"] == "downloading"`, resolve `t = d.get("total_bytes") or
d.get("total_bytes_estimate")`; when `t` is truthy, emit
`int(d.get("downloaded_bytes", 0) * 100 / t)`.  The result is the emitted
percentage, `none` when nothing is emitted (byte counts are naturals, so
`int` of the quotient is floor division). -/
def phook (status : String) (total_bytes total_bytes_estimate : Option Nat)
    (downloaded_bytes : Option Nat) : Option Nat :=
  if status = "downloading" then
    match pyOrNat total_bytes total_bytes_estimate with
    | some t => if t ≠ 0 then some (downloaded_bytes.getD 0 * 100 / t) else none
    | none => none
  else none

/-- The fields of the yt-dlp metadata dictionary that `DownloadWorker.run`
reads: `info.get("duration")` and `info.get("title")`. -/
structure ExtractInfo where
  duration : Option Nat
  title : Option String
  deriving DecidableEq, Repr

/-- The signals `DownloadWorker` can emit (the hook-driven `progress`
emissions during the download itself are modelled by `phook` above; `run`'s
own final `progress(100)` is included here). -/
inductive RunSig
  | progress (p : Nat)
  | finished (path : String) (dur : Nat)
  | error (msg : String)
  deriving DecidableEq, Repr

/-- `DownloadWorker.run`, as a function of its environment: the outcome of
`extract_info` (metadata or a raised exception's message), the outcome of
`ydl.download` (unit or a raised exception's message), and whether the
`.mp4` file exists afterwards.  Returns the emitted signals in order.
Mirrors: `dur = info.get("duration") or 0`, `title = info.get("title") or
"clip"`, `safe = sanitize(title)`, the `mp4.exists()` check raising
`RuntimeError("Download finished but .mp4 not found.")`, then
`progress.emit(100); finished.emit(mp4, dur)`; any exception is caught and
emitted as a single `error`. -/
def DownloadWorker.run (extract : Except String ExtractInfo)
    (download : Except String Unit) (mp4Exists : Bool) : List RunSig :=
  match extract with
  | .error e => [.error e]
  | .ok info =>
    let dur := info.duration.getD 0
    let title := pyOrStr info.title "clip"
    let safe := sanitize title "-"
    match download with
    | .error e => [.error e]
    | .ok _ =>
      if mp4Exists then [.progress 100, .finished (safe ++ ".mp4") dur]
      else [.error "Download finished but .mp4 not found."]

/-! ## Trim action (`MainUI.trim_save`) -/

/-- The externally visible events of `trim_save`, in order of occurrence. -/
inductive TrimEv
  | warnBadRange
  | saveDialog
  | btnDisabled
  | spawnFFmpeg (args : List String)
  | msgSaved (dst : String)
  | msgFFmpegError
  | btnEnabled
  | resetToDownloadPage
  | rmTmpDir
  deriving DecidableEq, Repr

/-- The ffmpeg command line built by `trim_save`:
`["ffmpeg","-hide_banner","-loglevel","error","-ss",str(a),"-to",str(b),
"-i",str(video_path),"-c","copy",dst]`. -/
def ffmpegArgs (a b : Int) (src dst : String) : List String :=
  ["ffmpeg", "-hide_banner", "-loglevel", "error", "-ss", toString a,
    "-to", toString b, "-i", src, "-c", "copy", dst]

/-- `MainUI.trim_save`, as a function of its environment: the current
`video_path` (`none` when no video is loaded), the slider's `lowerValue()`
`a` and `upperValue()` `b`, the destination chosen in the save dialog
(`none` when the user cancels), whether the spawned ffmpeg process exits
zero, and whether a temp directory exists.  Returns the event list:
an early `return` when no video; `b <= a` warns and returns before the
dialog; a cancelled dialog returns; otherwise the button is disabled,
ffmpeg runs, the outcome message is shown, and the `finally` block
re-enables the button, resets the page and removes the temp directory. -/
def MainUI.trim_save (video_path : Option String) (a b : Int)
    (dstChoice : Option String) (ffmpegOk : Bool) (hasTmp : Bool) : List TrimEv :=
  match video_path with
  | none => []
  | some vp =>
    if b ≤ a then [.warnBadRange]
    else
      .saveDialog ::
        match dstChoice with
        | none => []
        | some dst =>
          [.btnDisabled, .spawnFFmpeg (ffmpegArgs a b vp dst)] ++
            (if ffmpegOk then [.msgSaved dst] else [.msgFFmpegError]) ++
            [.btnEnabled, .resetToDownloadPage] ++
            (if hasTmp then [.rmTmpDir] else [])

/-! ## Helper lemmas -/

theorem sanitize_data (t : String) (repl : String) :
    (sanitize t repl).data =
      (t.data.map (fun c => if c ∈ INVALID then repl.data else [c])).flatten := by
  unfold sanitize
  rw [String.data_join]
  induction t.data with
  | nil => rfl
  | cons c l ih =>
    by_cases h : c ∈ INVALID <;>
      simp_all [String.singleton, List.flatten_cons]

/-- C10: for every input string `t`, `sanitize(t)` with the default
replacement `"-"` maps each character of the invalid set `<>:"/\|?*` to
`'-'` and leaves every other character unchanged (hence the result has the
same length as `t` and contains no invalid character). -/
theorem C10_theorem (t : String) :
    (sanitize t "-").data = t.data.map (fun c => if c ∈ INVALID then '-' else c) ∧
    (sanitize t "-").length = t.length ∧
    ∀ c ∈ (sanitize t "-").data, c ∉ INVALID := by
  have hdata : (sanitize t "-").data = t.data.map (fun c => if c ∈ INVALID then '-' else c) := by
    rw [sanitize_data]
    induction t.data with
    | nil => rfl
    | cons c l ih =>
      by_cases h : c ∈ INVALID <;> simp_all [List.flatten_cons]
  refine ⟨hdata, ?_, ?_⟩
  · show (sanitize t "-").data.length = t.data.length
    rw [hdata, List.length_map]
  · intro c hc
    rw [hdata] at hc
    obtain ⟨x, _, rfl⟩ := List.mem_map.mp hc
    by_cases h : x ∈ INVALID
    · simp only [if_pos h]; decide
    · simp only [if_neg h]; exact h

/-- C6: when a trim is requested (a video is loaded) with `end ≤ start`, the
action emits exactly the bad-range warning — no save dialog, no subprocess,
no other state change — and an ffmpeg subprocess is spawned only when
`end > start`. -/
theorem C6_theorem (vp : String) (a b : Int) (dstChoice : Option String) (ok tmp : Bool) :
    (b ≤ a → MainUI.trim_save (some vp) a b dstChoice ok tmp = [.warnBadRange]) ∧
    (∀ args, TrimEv.spawnFFmpeg args ∈ MainUI.trim_save (some vp) a b dstChoice ok tmp → a < b) := by
  constructor
  · intro h
    simp [MainUI.trim_save, h]
  · intro args hmem
    by_cases h : b ≤ a
    · simp [MainUI.trim_save, h] at hmem
    · omega

/-- Witness for C6 at `start = 50`, `end = 20`. -/
theorem C6_witness :
    MainUI.trim_save (some "video.mp4") 50 20 none true true = [.warnBadRange] :=
  (C6_theorem ("video.mp4") 50 20 none true true).1 (by decide)

/-- C7: for a `"downloading"` progress event whose total resolves (via
`total_bytes or total_bytes_estimate`) to a positive `t`, the hook emits
`⌊downloaded * 100 / t⌋`; when neither total is known nothing is emitted;
and `(downloaded=50, total=200)` yields `25`. -/
theorem C7_theorem (total_bytes total_bytes_estimate : Option Nat) (d t : Nat) :
    (pyOrNat total_bytes total_bytes_estimate = some t → 0 < t →
      phook "downloading" total_bytes total_bytes_estimate (some d) = some (d * 100 / t)) ∧
    (pyOrNat total_bytes total_bytes_estimate = none →
      ∀ dl, phook "downloading" total_bytes total_bytes_estimate dl = none) ∧
    phook "downloading" (some 200) none (some 50) = some 25 := by
  refine ⟨?_, ?_, by decide⟩
  · intro h hpos
    simp [phook, h, Nat.pos_iff_ne_zero.mp hpos]
  · intro h dl
    simp [phook, h]

/-- Witness for C7 at `downloaded = 50`, `total_bytes = 200`. -/
theorem C7_witness :
    phook "downloading" (some 200) none (some 50) = some (50 * 100 / 200) :=
  (C7_theorem (some 200) none 50 200).1 (by decide) (by decide)

/-- C9 as stated is false: with metadata lacking a duration but an otherwise
successful run, the worker emits `progress(100)` and `finished` with
duration `0` — no error signal at all (`dur = info.get("duration") or 0`). -/
theorem C9_counterexample :
    DownloadWorker.run (.ok { duration := none, title := some "clip" }) (.ok ()) true
      = [.progress 100, .finished "clip.mp4" 0] ∧
    ∀ m, RunSig.error m ∉
      DownloadWorker.run (.ok { duration := none, title := some "clip" }) (.ok ()) true := by
  have h1 : DownloadWorker.run (.ok { duration := none, title := some "clip" }) (.ok ()) true
      = [.progress 100, .finished "clip.mp4" 0] := by decide
  refine ⟨h1, ?_⟩
  intro m hm
  rw [h1] at hm
  simp at hm

/-- C9 (amended): missing duration is not treated as a failure.  When the
metadata query yields no total duration, the worker proceeds with duration
`0`: on an otherwise successful run (download succeeds, output file exists)
it emits `progress(100)` then `finished` with duration `0`, and no error
signal; errors are reserved for raised exceptions. -/
theorem C9_theorem (title : Option String) :
    DownloadWorker.run (.ok { duration := none, title := title }) (.ok ()) true
      = [.progress 100, .finished (sanitize (pyOrStr title "clip") "-" ++ ".mp4") 0] ∧
    ∀ m, RunSig.error m ∉
      DownloadWorker.run (.ok { duration := none, title := title }) (.ok ()) true := by
  have h1 : DownloadWorker.run (.ok { duration := none, title := title }) (.ok ()) true
      = [.progress 100, .finished (sanitize (pyOrStr title "clip") "-" ++ ".mp4") 0] := rfl
  refine ⟨h1, ?_⟩
  intro m hm
  rw [h1] at hm
  simp at hm

/-! ## RangeSlider field lemmas -/

theorem setLowerValue_fst_minv (s : RangeSlider) (v : Int) :
    (s.setLowerValue v).1.minv = s.minv := by
  simp only [RangeSlider.setLowerValue]
  split_ifs <;> rfl

theorem setLowerValue_fst_maxv (s : RangeSlider) (v : Int) :
    (s.setLowerValue v).1.maxv = s.maxv := by
  simp only [RangeSlider.setLowerValue]
  split_ifs <;> rfl

theorem setLowerValue_fst_upper (s : RangeSlider) (v : Int) :
    (s.setLowerValue v).1.upper = s.upper := by
  simp only [RangeSlider.setLowerValue]
  split_ifs <;> rfl

theorem setLowerValue_fst_lower (s : RangeSlider) (v : Int) :
    (s.setLowerValue v).1.lower = max s.minv (min v s.upper) := by
  simp only [RangeSlider.setLowerValue]
  split_ifs with h1 h2 <;> simp_all

theorem setLowerValue_fst_value (s : RangeSlider) (v : Int) :
    (s.setLowerValue v).1.value =
      if max s.minv (min v s.upper) ≠ s.lower ∧ s.value < max s.minv (min v s.upper)
      then max s.minv (min v s.upper) else s.value := by
  simp only [RangeSlider.setLowerValue]
  split_ifs <;> simp_all

theorem setLowerValue_snd (s : RangeSlider) (v : Int) :
    (s.setLowerValue v).2 =
      if max s.minv (min v s.upper) ≠ s.lower then
        (if s.value < max s.minv (min v s.upper)
         then [SliderSig.valChanged (max s.minv (min v s.upper)),
               SliderSig.lowerChanged (max s.minv (min v s.upper))]
         else [SliderSig.lowerChanged (max s.minv (min v s.upper))])
      else [] := by
  simp only [RangeSlider.setLowerValue]
  split_ifs <;> simp_all

theorem setUpperValue_fst_minv (s : RangeSlider) (v : Int) :
    (s.setUpperValue v).1.minv = s.minv := by
  simp only [RangeSlider.setUpperValue]
  split_ifs <;> rfl

theorem setUpperValue_fst_maxv (s : RangeSlider) (v : Int) :
    (s.setUpperValue v).1.maxv = s.maxv := by
  simp only [RangeSlider.setUpperValue]
  split_ifs <;> rfl

theorem setUpperValue_fst_lower (s : RangeSlider) (v : Int) :
    (s.setUpperValue v).1.lower = s.lower := by
  simp only [RangeSlider.setUpperValue]
  split_ifs <;> rfl

theorem setUpperValue_fst_upper (s : RangeSlider) (v : Int) :
    (s.setUpperValue v).1.upper = min s.maxv (max v s.lower) := by
  simp only [RangeSlider.setUpperValue]
  split_ifs <;> simp_all

theorem setUpperValue_fst_value (s : RangeSlider) (v : Int) :
    (s.setUpperValue v).1.value =
      if min s.maxv (max v s.lower) ≠ s.upper ∧ min s.maxv (max v s.lower) < s.value
      then min s.maxv (max v s.lower) else s.value := by
  simp only [RangeSlider.setUpperValue]
  split_ifs <;> simp_all

theorem setUpperValue_snd (s : RangeSlider) (v : Int) :
    (s.setUpperValue v).2 =
      if min s.maxv (max v s.lower) ≠ s.upper then
        (if min s.maxv (max v s.lower) < s.value
         then [SliderSig.valChanged (min s.maxv (max v s.lower)),
               SliderSig.upperChanged (min s.maxv (max v s.lower))]
         else [SliderSig.upperChanged (min s.maxv (max v s.lower))])
      else [] := by
  simp only [RangeSlider.setUpperValue, gt_iff_lt]
  split_ifs <;> simp_all

theorem setValue_fst (s : RangeSlider) (v : Int) :
    (s.setValue v).1 = { s with value := max s.lower (min v s.upper) } := by
  simp only [RangeSlider.setValue]
  split_ifs with h <;> simp_all

theorem setValue_snd (s : RangeSlider) (v : Int) :
    (s.setValue v).2 =
      if max s.lower (min v s.upper) ≠ s.value
      then [SliderSig.valChanged (max s.lower (min v s.upper))] else [] := by
  simp only [RangeSlider.setValue]
  split_ifs <;> simp_all

/-- C1 as stated is false: `setRange` copies its arguments unchecked, so
`setRange(50, 20)` applied to the freshly constructed widget (which does
satisfy the invariant) leaves `min = lower = 50 > upper = max = 20`. -/
theorem C1_counterexample :
    RangeSlider.Inv (RangeSlider.init 0 99) ∧
    ¬ RangeSlider.Inv ((RangeSlider.init 0 99).setRange 50 20) := by
  decide

/-- C1 (amended): `setRange(a, b)` establishes the invariant from any state
provided `a ≤ b`, and `setLowerValue`, `setUpperValue` and `setValue` with
arbitrary integer arguments preserve the invariant from any state that
satisfies it. -/
theorem C1_theorem (s : RangeSlider) (a b v : Int) (hab : a ≤ b) (hinv : s.Inv) :
    (s.setRange a b).Inv ∧ (s.setLowerValue v).1.Inv ∧
    (s.setUpperValue v).1.Inv ∧ (s.setValue v).1.Inv := by
  obtain ⟨h1, h2, h3, h4, h5⟩ := hinv
  refine ⟨?_, ?_, ?_, ?_⟩
  · simp only [RangeSlider.setRange, RangeSlider.Inv]
    omega
  · simp only [RangeSlider.Inv, setLowerValue_fst_minv, setLowerValue_fst_maxv,
      setLowerValue_fst_lower, setLowerValue_fst_upper, setLowerValue_fst_value]
    split_ifs <;> omega
  · simp only [RangeSlider.Inv, setUpperValue_fst_minv, setUpperValue_fst_maxv,
      setUpperValue_fst_lower, setUpperValue_fst_upper, setUpperValue_fst_value]
    split_ifs <;> omega
  · simp only [RangeSlider.Inv, setValue_fst]
    omega

/-- Witness for C1 on the widget as the application uses it. -/
theorem C1_witness :
    RangeSlider.Inv ((RangeSlider.init 0 99).setRange 0 120) ∧
    RangeSlider.Inv ((RangeSlider.init 0 99).setLowerValue 30).1 ∧
    RangeSlider.Inv ((RangeSlider.init 0 99).setUpperValue 30).1 ∧
    RangeSlider.Inv ((RangeSlider.init 0 99).setValue 30).1 :=
  C1_theorem (RangeSlider.init 0 99) 0 120 30 (by decide) (by decide)

/-- C2 as stated is false: in the valid, reachable state with range
`[0, 100]` and `upper = 10`, the arguments `a = 50 ≤ b = 60` lie in
`[min, max]`, yet `set_lower(50)` clamps to the current `upper = 10`, so the
sequence ends with `lower = 10 ≠ 50`. -/
theorem C2_counterexample :
    RangeSlider.Inv ((RangeSlider.init 0 100).setUpperValue 10).1 ∧
    (((RangeSlider.init 0 100).setUpperValue 10).1.minv ≤ 50 ∧ (50 : Int) ≤ 60 ∧
      60 ≤ ((RangeSlider.init 0 100).setUpperValue 10).1.maxv) ∧
    ¬ (((((RangeSlider.init 0 100).setUpperValue 10).1.setLowerValue 50).1.setUpperValue 60).1.lower
        = 50) := by
  decide

/-- C2 (amended): for `min ≤ a ≤ b ≤ max` with additionally `a` not above
the state's current `upper` (so that `set_lower(a)` is not clamped), the
sequence `set_lower(a); set_upper(b)` leaves `lower = a` and `upper = b`. -/
theorem C2_theorem (s : RangeSlider) (a b : Int) (h1 : s.minv ≤ a) (h2 : a ≤ b)
    (h3 : b ≤ s.maxv) (h4 : a ≤ s.upper) :
    (((s.setLowerValue a).1).setUpperValue b).1.lower = a ∧
    (((s.setLowerValue a).1).setUpperValue b).1.upper = b := by
  have hl : (s.setLowerValue a).1.lower = a := by
    rw [setLowerValue_fst_lower]; omega
  constructor
  · rw [setUpperValue_fst_lower, hl]
  · rw [setUpperValue_fst_upper, hl, setLowerValue_fst_maxv]
    omega

/-- Witness for C2: range `[0, 120]`, `set_lower(30); set_upper(90)`. -/
theorem C2_witness :
    ((((RangeSlider.init 0 120).setLowerValue 30).1).setUpperValue 90).1.lower = 30 ∧
    ((((RangeSlider.init 0 120).setLowerValue 30).1).setUpperValue 90).1.upper = 90 :=
  C2_theorem (RangeSlider.init 0 120) 30 90 (by decide) (by decide) (by decide) (by decide)

/-- C3: in any state satisfying the invariant, `setLowerValue(v)` stores `v`
clamped into `[min, upper]` (and symmetrically `setUpperValue(v)` into
`[lower, max]`); whenever the new lower exceeds the current position (resp.
the new upper is below it) the position is snapped to that bound and
`valueChanged` fires (otherwise the position is untouched and no
`valueChanged` fires); and `lowerValueChanged` (resp. `upperValueChanged`)
fires if and only if the stored bound actually changed. -/
theorem C3_theorem (s : RangeSlider) (v w : Int) (hinv : s.Inv) :
    ((s.minv ≤ (s.setLowerValue v).1.lower ∧ (s.setLowerValue v).1.lower ≤ s.upper) ∧
     (s.minv ≤ v → v ≤ s.upper → (s.setLowerValue v).1.lower = v) ∧
     (v < s.minv → (s.setLowerValue v).1.lower = s.minv) ∧
     (s.upper < v → (s.setLowerValue v).1.lower = s.upper) ∧
     (s.value < (s.setLowerValue v).1.lower →
       (s.setLowerValue v).1.value = (s.setLowerValue v).1.lower ∧
       SliderSig.valChanged ((s.setLowerValue v).1.lower) ∈ (s.setLowerValue v).2) ∧
     ((s.setLowerValue v).1.lower ≤ s.value →
       (s.setLowerValue v).1.value = s.value ∧
       ∀ x, SliderSig.valChanged x ∉ (s.setLowerValue v).2) ∧
     ((∃ x, SliderSig.lowerChanged x ∈ (s.setLowerValue v).2) ↔
       (s.setLowerValue v).1.lower ≠ s.lower)) ∧
    ((s.lower ≤ (s.setUpperValue w).1.upper ∧ (s.setUpperValue w).1.upper ≤ s.maxv) ∧
     (s.lower ≤ w → w ≤ s.maxv → (s.setUpperValue w).1.upper = w) ∧
     (w < s.lower → (s.setUpperValue w).1.upper = s.lower) ∧
     (s.maxv < w → (s.setUpperValue w).1.upper = s.maxv) ∧
     ((s.setUpperValue w).1.upper < s.value →
       (s.setUpperValue w).1.value = (s.setUpperValue w).1.upper ∧
       SliderSig.valChanged ((s.setUpperValue w).1.upper) ∈ (s.setUpperValue w).2) ∧
     (s.value ≤ (s.setUpperValue w).1.upper →
       (s.setUpperValue w).1.value = s.value ∧
       ∀ x, SliderSig.valChanged x ∉ (s.setUpperValue w).2) ∧
     ((∃ x, SliderSig.upperChanged x ∈ (s.setUpperValue w).2) ↔
       (s.setUpperValue w).1.upper ≠ s.upper)) := by
  obtain ⟨h1, h2, h3, h4, h5⟩ := hinv
  constructor
  · simp only [setLowerValue_fst_lower, setLowerValue_fst_value, setLowerValue_snd]
    refine ⟨⟨by omega, by omega⟩, fun _ _ => by omega, fun _ => by omega, fun _ => by omega,
      ?_, ?_, ?_⟩
    · intro hlt
      split_ifs with hc <;> (simp_all; try omega)
    · intro hle
      split_ifs with hc <;> (simp_all; try omega)
    · split_ifs with hc hc2 <;> simp_all
  · simp only [setUpperValue_fst_upper, setUpperValue_fst_value, setUpperValue_snd]
    refine ⟨⟨by omega, by omega⟩, fun _ _ => by omega, fun _ => by omega, fun _ => by omega,
      ?_, ?_, ?_⟩
    · intro hlt
      split_ifs with hc <;> (simp_all; try omega)
    · intro hle
      split_ifs with hc <;> (simp_all; try omega)
    · split_ifs with hc hc2 <;> simp_all

/-- Witness for C3: on the fresh widget `[0, 99]`, `setLowerValue(10)`
stores exactly `10`. -/
theorem C3_witness :
    ((RangeSlider.init 0 99).setLowerValue 10).1.lower = 10 :=
  (C3_theorem (RangeSlider.init 0 99) 10 50 (by decide)).1.2.1 (by decide) (by decide)

/-- C4: provided `lower ≤ upper`, `setValue(v)` stores `v` clamped into
`[lower, upper]` and emits `valueChanged` (with the stored value) exactly
when the stored position changes; and the scenario: range `[0, 120]`,
`set_lower(30)`, `set_upper(90)`, then `setValue(10)` leaves `value = 30`. -/
theorem C4_theorem (s : RangeSlider) (v : Int) (h : s.lower ≤ s.upper) :
    ((s.lower ≤ (s.setValue v).1.value ∧ (s.setValue v).1.value ≤ s.upper) ∧
     (s.lower ≤ v → v ≤ s.upper → (s.setValue v).1.value = v) ∧
     (v < s.lower → (s.setValue v).1.value = s.lower) ∧
     (s.upper < v → (s.setValue v).1.value = s.upper) ∧
     ((∃ x, SliderSig.valChanged x ∈ (s.setValue v).2) ↔ (s.setValue v).1.value ≠ s.value) ∧
     (∀ x, SliderSig.valChanged x ∈ (s.setValue v).2 → x = (s.setValue v).1.value)) ∧
    (((((RangeSlider.init 0 99).setRange 0 120).setLowerValue 30).1.setUpperValue 90).1.setValue
        10).1.value = 30 := by
  constructor
  · simp only [setValue_fst, setValue_snd]
    refine ⟨⟨by omega, by omega⟩, fun _ _ => by omega, fun _ => by omega, fun _ => by omega,
      ?_, ?_⟩
    · split_ifs with hc <;> simp_all
    · split_ifs with hc <;> simp_all
  · decide

/-- Witness for C4: `setValue(10)` on the widget with `lower = 30`,
`upper = 90` clamps up to `30`. -/
theorem C4_witness :
    (((((RangeSlider.init 0 99).setRange 0 120).setLowerValue 30).1.setUpperValue 90).1.setValue
        10).1.value =
      ((((RangeSlider.init 0 99).setRange 0 120).setLowerValue 30).1.setUpperValue 90).1.lower :=
  ((C4_theorem ((((RangeSlider.init 0 99).setRange 0 120).setLowerValue 30).1.setUpperValue 90).1
      10 (by decide)).1.2.2.1 (by decide))

/-! ## C8: the shape of hhmmss output -/

/-- The shape claimed by the spec: exactly `HH:MM:SS` with a two-digit
hour, two-digit minute and two-digit second. -/
def isTwoDigitHMS (s : String) : Bool :=
  match s.data with
  | [a, b, c, d, e, f, g, h] =>
    a.isDigit && b.isDigit && c == ':' && d.isDigit && e.isDigit &&
      f == ':' && g.isDigit && h.isDigit
  | _ => false

theorem toString_hour_shape (h : Nat) (hh : h < 24) :
    ((toString h).data.length = 1 ∨ (toString h).data.length = 2) ∧
      (toString h).data.all Char.isDigit := by
  interval_cases h <;> decide

theorem pad2_shape (m : Nat) (hm : m < 60) :
    (pad2 m).data.length = 2 ∧ (pad2 m).data.all Char.isDigit := by
  interval_cases m <;> decide

/-- C8 as stated is false: `hhmmss` is `str(timedelta(...))`, which does not
zero-pad the hour; already `hhmmss 0 = "0:00:00"` (seven characters) fails
the two-digit-hour `HH:MM:SS` shape. -/
theorem C8_counterexample :
    0 ≤ (0 : Int) ∧ hhmmss 0 = "0:00:00" ∧ isTwoDigitHMS (hhmmss 0) = false := by
  decide

/-- C8 (amended): for every non-negative input below one day (86400 s) the
result is `H:MM:SS` text: an unpadded one- or two-digit hour, a two-digit
minute and a two-digit second, all decimal digits, separated by colons
(inputs of a day or more additionally get a `"N day(s), "` prefix). -/
theorem C8_theorem (sec : Int) (h0 : 0 ≤ sec) (h1 : sec < 86400) :
    ∃ hd md sd : List Char,
      (hhmmss sec).data = hd ++ ':' :: (md ++ ':' :: sd) ∧
      (hd.length = 1 ∨ hd.length = 2) ∧ hd.all Char.isDigit ∧
      md.length = 2 ∧ md.all Char.isDigit ∧
      sd.length = 2 ∧ sd.all Char.isDigit := by
  have hdays : sec.fdiv 86400 = 0 := by
    rw [Int.fdiv_eq_ediv _ (by omega)]
    exact Int.ediv_eq_zero_of_lt h0 h1
  have hn : (sec - 86400 * 0).toNat = sec.toNat := by omega
  have hnlt : sec.toNat < 86400 := by omega
  have hhlt : sec.toNat / 3600 < 24 := by omega
  have hmlt : sec.toNat % 3600 / 60 < 60 := by omega
  have hslt : sec.toNat % 60 < 60 := by omega
  refine ⟨(toString (sec.toNat / 3600)).data, (pad2 (sec.toNat % 3600 / 60)).data,
    (pad2 (sec.toNat % 60)).data, ?_, (toString_hour_shape _ hhlt).1,
    (toString_hour_shape _ hhlt).2, (pad2_shape _ hmlt).1, (pad2_shape _ hmlt).2,
    (pad2_shape _ hslt).1, (pad2_shape _ hslt).2⟩
  simp only [hhmmss, hdays, hn, if_pos rfl, String.data_append]
  simp [List.append_assoc]

/-! ## C5: coordinate-mapping round trip -/

theorem pyround_intCast (n : Int) : pyround ((n : Rat)) = n := by
  unfold pyround
  rw [Int.floor_intCast]
  norm_num

theorem pytrunc_intCast (n : Int) : pytrunc ((n : Rat)) = n := by
  unfold pytrunc
  split_ifs with h
  · rw [show (-(n : Rat)) = ((-n : Int) : Rat) by push_cast; ring, Int.floor_intCast]
    ring
  · exact Int.floor_intCast n

theorem intCast_le_pyround {q : Rat} {n : Int} (h : (n : Rat) ≤ q) : n ≤ pyround q := by
  have hf : n ≤ Int.floor q := Int.le_floor.mpr h
  simp only [pyround]
  split_ifs <;> omega

theorem pyround_le_intCast {q : Rat} {n : Int} (h : q ≤ (n : Rat)) : pyround q ≤ n := by
  have hf : Int.floor q ≤ n := by
    have := Int.floor_le_floor h
    rwa [Int.floor_intCast] at this
  have hfq : ((Int.floor q : Int) : Rat) ≤ q := Int.floor_le q
  simp only [pyround]
  split_ifs with h1 h2 h3
  · exact hf
  · have hr : (1 : Rat)/2 ≤ q - (Int.floor q : Int) := not_lt.mp h1
    have : ((Int.floor q : Int) : Rat) < (n : Rat) := by linarith
    have : Int.floor q < n := by exact_mod_cast this
    omega
  · exact hf
  · have hr : (1 : Rat)/2 ≤ q - (Int.floor q : Int) := not_lt.mp h1
    have : ((Int.floor q : Int) : Rat) < (n : Rat) := by linarith
    have : Int.floor q < n := by exact_mod_cast this
    omega

/-- C5 as stated is false: with widget width 26 (usable width 10) and range
`[0, 13]`, the in-range pixel 9 maps to value 1, value 1 maps back to pixel
8, and pixel 8 maps to value 0 ≠ 1 — the pixel→value→pixel round trip is
not idempotent (mapping the resulting pixel back yields a different
value). -/
theorem C5_counterexample :
    ((handle_r : Rat) ≤ 9 ∧ (9 : Rat) ≤ (26 : Rat) - (handle_r : Rat)) ∧
    pos_to_val 26 0 13 (9 : Rat) = 1 ∧
    val_to_pos 26 0 13 1 = 8 ∧
    pos_to_val 26 0 13 ((val_to_pos 26 0 13 (pos_to_val 26 0 13 (9 : Rat)) : Int) : Rat) = 0 ∧
    pos_to_val 26 0 13 ((val_to_pos 26 0 13 (pos_to_val 26 0 13 (9 : Rat)) : Int) : Rat)
      ≠ pos_to_val 26 0 13 (9 : Rat) := by
  have h1 : pos_to_val 26 0 13 (9 : Rat) = 1 := by
    simp only [pos_to_val, pyround, sliderSpan, handle_r]
    norm_num [min_def, max_def]
  have h2 : val_to_pos 26 0 13 1 = 8 := by
    simp only [val_to_pos, pytrunc, sliderSpan, handle_r]
    norm_num
  have h3 : pos_to_val 26 0 13 ((8 : Int) : Rat) = 0 := by
    simp only [pos_to_val, pyround, sliderSpan, handle_r]
    norm_num [min_def, max_def]
  have h4 : pos_to_val 26 0 13 ((val_to_pos 26 0 13 (pos_to_val 26 0 13 (9 : Rat)) : Int) : Rat)
      = 0 := by
    rw [h1, h2]
    exact h3
  refine ⟨⟨by norm_num [handle_r], by norm_num [handle_r]⟩, h1, h2, h4, ?_⟩
  rw [h4, h1]
  decide

/-- C5 (amended): the inverse mapping clamps its pixel argument into
`[handle_r, width - handle_r]` before scaling (so it agrees with itself on
the clamped pixel), and — provided the span `max - min` divides the usable
width `width - 2·handle_r` — the pixel→value→pixel round trip is idempotent
for every pixel coordinate in the clamped range; without that divisibility
the round trip can change the value (see the counterexample). -/
theorem C5_theorem (width minv maxv : Int) (x : Rat)
    (hrange : minv ≤ maxv)
    (hw : 0 < width - 2 * handle_r)
    (hdvd : sliderSpan minv maxv ∣ (width - 2 * handle_r))
    (hx1 : (handle_r : Rat) ≤ x) (hx2 : x ≤ (width : Rat) - (handle_r : Rat)) :
    (∀ y : Rat, pos_to_val width minv maxv y
      = pos_to_val width minv maxv
          (max (handle_r : Rat) (min y ((width : Rat) - (handle_r : Rat))))) ∧
    pos_to_val width minv maxv ((val_to_pos width minv maxv (pos_to_val width minv maxv x) : Int) : Rat)
      = pos_to_val width minv maxv x := by
  obtain ⟨m, hm⟩ := hdvd
  have hsp : 0 < sliderSpan minv maxv := by
    unfold sliderSpan; split_ifs <;> omega
  have hm0 : 0 < m := by nlinarith
  have hwQ : (0 : Rat) < ((width - 2 * handle_r : Int) : Rat) := by exact_mod_cast hw
  have hspQ : (0 : Rat) < ((sliderSpan minv maxv : Int) : Rat) := by exact_mod_cast hsp
  have h8W : (handle_r : Rat) ≤ (width : Rat) - (handle_r : Rat) := by
    have : ((0 : Int) : Rat) < ((width - 2 * handle_r : Int) : Rat) := by exact_mod_cast hw
    push_cast at this
    linarith
  constructor
  · intro y
    simp only [pos_to_val]
    have hcc : max (handle_r : Rat)
        (min (max (handle_r : Rat) (min y ((width : Rat) - (handle_r : Rat))))
          ((width : Rat) - (handle_r : Rat)))
        = max (handle_r : Rat) (min y ((width : Rat) - (handle_r : Rat))) := by
      rw [min_eq_left (max_le h8W (min_le_right _ _)), max_eq_right (le_max_left _ _)]
    rw [hcc]
  have hclamp : max (handle_r : Rat) (min x ((width : Rat) - (handle_r : Rat))) = x := by
    rw [min_eq_left hx2, max_eq_right hx1]
  obtain ⟨v, hv⟩ : ∃ v, pos_to_val width minv maxv x = v := ⟨_, rfl⟩
  rw [hv]
  have hA : v = pyround ((x - (handle_r : Rat)) / ((width - 2 * handle_r : Int) : Rat)
      * ((sliderSpan minv maxv : Int) : Rat) + (minv : Rat)) := by
    rw [← hv]
    simp only [pos_to_val]
    rw [hclamp]
  have hq_lb : (minv : Rat) ≤ (x - (handle_r : Rat)) / ((width - 2 * handle_r : Int) : Rat)
      * ((sliderSpan minv maxv : Int) : Rat) + (minv : Rat) := by
    have hy0 : (0 : Rat) ≤ x - (handle_r : Rat) := by linarith
    have := mul_nonneg (div_nonneg hy0 hwQ.le) hspQ.le
    linarith
  have hq_ub : (x - (handle_r : Rat)) / ((width - 2 * handle_r : Int) : Rat)
      * ((sliderSpan minv maxv : Int) : Rat) + (minv : Rat)
      ≤ ((minv + sliderSpan minv maxv : Int) : Rat) := by
    have hy1 : (x - (handle_r : Rat)) / ((width - 2 * handle_r : Int) : Rat) ≤ 1 := by
      rw [div_le_one hwQ]
      push_cast
      linarith
    have := mul_le_mul_of_nonneg_right hy1 hspQ.le
    rw [Int.cast_add]
    linarith
  have hv_lb : minv ≤ v := by
    rw [hA]; exact intCast_le_pyround hq_lb
  have hv_ub : v ≤ minv + sliderSpan minv maxv := by
    rw [hA]; exact pyround_le_intCast hq_ub
  have hBarg : ((v : Rat) - (minv : Rat)) / ((sliderSpan minv maxv : Int) : Rat)
      * ((width - 2 * handle_r : Int) : Rat) = (((v - minv) * m : Int) : Rat) := by
    rw [hm]
    push_cast
    field_simp
    ring
  have hB : val_to_pos width minv maxv v = (v - minv) * m + handle_r := by
    simp only [val_to_pos]
    rw [hBarg, pytrunc_intCast]
  have hk0 : 0 ≤ (v - minv) * m := mul_nonneg (by omega) hm0.le
  have hkw : (v - minv) * m ≤ width - 2 * handle_r := by
    have h1 : v - minv ≤ sliderSpan minv maxv := by omega
    calc (v - minv) * m ≤ sliderSpan minv maxv * m := mul_le_mul_of_nonneg_right h1 hm0.le
      _ = width - 2 * handle_r := hm.symm
  have hX1 : (handle_r : Rat) ≤ (((v - minv) * m + handle_r : Int) : Rat) := by
    exact_mod_cast (by omega : handle_r ≤ (v - minv) * m + handle_r)
  have hX2 : (((v - minv) * m + handle_r : Int) : Rat) ≤ (width : Rat) - (handle_r : Rat) := by
    have h2 : ((v - minv) * m + handle_r : Int) ≤ width - handle_r := by omega
    have h2Q : (((v - minv) * m + handle_r : Int) : Rat) ≤ ((width - handle_r : Int) : Rat) := by
      exact_mod_cast h2
    push_cast at h2Q ⊢
    linarith
  have hclamp2 : max (handle_r : Rat)
      (min (((v - minv) * m + handle_r : Int) : Rat) ((width : Rat) - (handle_r : Rat)))
      = (((v - minv) * m + handle_r : Int) : Rat) := by
    rw [min_eq_left hX2, max_eq_right hX1]
  rw [hB]
  simp only [pos_to_val]
  rw [hclamp2]
  have hsub : ((((v - minv) * m + handle_r : Int) : Rat) - (handle_r : Rat))
      = (((v - minv) * m : Int) : Rat) := by
    push_cast
    ring
  rw [hsub]
  have harg2 : (((v - minv) * m : Int) : Rat) / ((width - 2 * handle_r : Int) : Rat)
      * ((sliderSpan minv maxv : Int) : Rat) + (minv : Rat) = ((v : Int) : Rat) := by
    rw [hm]
    push_cast
    field_simp
    ring
  rw [harg2, pyround_intCast]

/-- Witness for C5 at width 26, range `[0, 10]` (span 10 divides usable
width 10), pixel 13. -/
theorem C5_witness :
    pos_to_val 26 0 10 ((val_to_pos 26 0 10 (pos_to_val 26 0 10 (13 : Rat)) : Int) : Rat)
      = pos_to_val 26 0 10 (13 : Rat) :=
  (C5_theorem 26 0 10 13 (by decide) (by decide) ⟨1, by decide⟩
    (by norm_num [handle_r]) (by norm_num [handle_r])).2

/-- Witness for C8 at 3661 s (= 1:01:01). -/
theorem C8_witness :
    (0 ≤ (3661 : Int) ∧ (3661 : Int) < 86400) ∧
    ∃ hd md sd : List Char,
      (hhmmss 3661).data = hd ++ ':' :: (md ++ ':' :: sd) ∧
      (hd.length = 1 ∨ hd.length = 2) ∧ hd.all Char.isDigit ∧
      md.length = 2 ∧ md.all Char.isDigit ∧
      sd.length = 2 ∧ sd.all Char.isDigit :=
  ⟨⟨by decide, by decide⟩, C8_theorem 3661 (by decide) (by decide)⟩
